import Mathlib

/-!
Shallow embedding of the cnsc-vps-api vehicle-pass / RFID core.

The definitions below are translated from the JavaScript source:
  - `src/routes/rfid.js`      (POST /api/rfid/scan, POST /api/rfid/assign,
                               GET /api/rfid/scanId)
  - admin routes              (approve / reject / issue-rfid / deactivate-rfid,
                               POST /api/walkins/application)
  - `src/routes/vehicle-passes.js` (POST /application, PUT & DELETE
                               /files/:applicationId/:fileType)

Mongoose documents become Lean structures, the Mongo collection becomes a
`List Application`, `findOne`/`findById` become `List.find?`, and
`document.save()` becomes a pointwise update of the list.  JavaScript `Date`
values are modelled at (year, moment-within-year) granularity: the only
operations the source performs on dates are strict comparison (`>`) and
`setFullYear(year + 1)`, both of which this model captures (the Feb-29
overflow of `setFullYear` is below this granularity and no route depends on
it).  A thrown exception from an awaited store lookup is modelled by an
explicit `Option String` parameter (`none` = the store call succeeds).
Pure telemetry that the routes merely copy through (`metadata`, the
`responseTime` latency measurement) is elided.  Of the `validateRFIDScan`
middleware, the `tagId` trim/notEmpty sanitization is folded into the tag
extraction; its enum validation of the optional telemetry fields — a
further 400 rejection before evaluation that writes no ScanRecord — is
elided.
-/

namespace VPS

/-- JS `Date` at (year, moment-within-year) granularity.  `ofYear` encodes
the month/day/time position inside the year; dates compare
lexicographically, exactly as `Date` comparison behaves on real dates. -/
structure DateTime where
  year : Int
  ofYear : Nat
deriving DecidableEq, Repr

/-- JS `a > b` on two `Date` values. -/
def DateTime.jsAfter (a b : DateTime) : Bool :=
  a.year > b.year || (a.year == b.year && a.ofYear > b.ofYear)

/-- Models `d.setFullYear(d.getFullYear() + 1)` from POST /api/rfid/assign:
same position in the year, one calendar year later. -/
def DateTime.addOneYear (d : DateTime) : DateTime :=
  ⟨d.year + 1, d.ofYear⟩

/-- The `status` enum of the VehiclePassApplication schema. -/
inductive AppStatus where
  | pending
  | approved
  | completed
  | rejected
deriving DecidableEq, Repr

/-- The `rfidInfo` sub-document of an application. -/
structure RfidInfo where
  tagId : String
  assignedAt : DateTime
  assignedBy : Nat
  isActive : Bool
  validUntil : Option DateTime
deriving DecidableEq, Repr

/-- The `paymentInfo` sub-document written by issue-rfid. -/
structure PaymentInfo where
  paidAt : DateTime
  orReceiptNumber : Option String
  amount : Option Int
  cashierName : Option String
deriving DecidableEq, Repr

/-- The `vehicleInfo` sub-document (`type` is renamed `vtype`, a Lean
keyword clash). -/
structure VehicleInfo where
  vtype : String
  plateNumber : String
  orNumber : String
  crNumber : String
  driverName : Option String
  driverLicense : Option String
deriving DecidableEq, Repr

/-- One stored file reference inside `attachments`. -/
structure FileRef where
  fileId : Nat
  fileName : String
  fileSize : Nat
  mimeType : String
deriving DecidableEq, Repr

/-- The `attachments` sub-document: one optional file per document type
(the five entries of `validFileTypes` in vehicle-passes.js). -/
structure Attachments where
  orCopy : Option FileRef
  crCopy : Option FileRef
  driversLicenseCopy : Option FileRef
  authLetter : Option FileRef
  deedOfSale : Option FileRef
deriving DecidableEq, Repr

/-- The five valid `fileType` route parameters. -/
inductive FileType where
  | orCopy
  | crCopy
  | driversLicenseCopy
  | authLetter
  | deedOfSale
deriving DecidableEq, Repr

/-- Decode the `:fileType` route parameter against `validFileTypes`. -/
def fileTypeOf? (s : String) : Option FileType :=
  if s = "orCopy" then some .orCopy
  else if s = "crCopy" then some .crCopy
  else if s = "driversLicenseCopy" then some .driversLicenseCopy
  else if s = "authLetter" then some .authLetter
  else if s = "deedOfSale" then some .deedOfSale
  else none

def emptyAttachments : Attachments :=
  ⟨none, none, none, none, none⟩

def getAttachment (a : Attachments) : FileType → Option FileRef
  | .orCopy => a.orCopy
  | .crCopy => a.crCopy
  | .driversLicenseCopy => a.driversLicenseCopy
  | .authLetter => a.authLetter
  | .deedOfSale => a.deedOfSale

def setAttachment (a : Attachments) (ft : FileType) (f : FileRef) : Attachments :=
  match ft with
  | .orCopy => { a with orCopy := some f }
  | .crCopy => { a with crCopy := some f }
  | .driversLicenseCopy => { a with driversLicenseCopy := some f }
  | .authLetter => { a with authLetter := some f }
  | .deedOfSale => { a with deedOfSale := some f }

def clearAttachment (a : Attachments) (ft : FileType) : Attachments :=
  match ft with
  | .orCopy => { a with orCopy := none }
  | .crCopy => { a with crCopy := none }
  | .driversLicenseCopy => { a with driversLicenseCopy := none }
  | .authLetter => { a with authLetter := none }
  | .deedOfSale => { a with deedOfSale := none }

/-- Computes `Object.keys(application.attachments).length === 0` after a delete. -/
def Attachments.isEmptyA (a : Attachments) : Bool :=
  a.orCopy.isNone && a.crCopy.isNone && a.driversLicenseCopy.isNone
    && a.authLetter.isNone && a.deedOfSale.isNone

/-- One VehiclePassApplication document.  `id` stands for the Mongo `_id`,
`linkedUser` is absent for walk-in applications. -/
structure Application where
  id : Nat
  linkedUser : Option Nat
  status : AppStatus
  reviewedBy : Option Nat
  vehicleInfo : VehicleInfo
  rfidInfo : Option RfidInfo
  paymentInfo : Option PaymentInfo
  attachments : Option Attachments
deriving DecidableEq, Repr

/-- Models the lookup by tag, `findOne` on the `rfidInfo.tagId` field. -/
def findByTag (store : List Application) (tagId : String) : Option Application :=
  store.find? (fun a =>
    match a.rfidInfo with
    | some r => r.tagId == tagId
    | none => false)

/-- Models `VehiclePassApplication.findById(applicationId)`. -/
def findById (store : List Application) (i : Nat) : Option Application :=
  store.find? (fun a => a.id == i)

/-- Models `application.save()`: replace the document with the given id. -/
def updateById (store : List Application) (i : Nat)
    (f : Application → Application) : List Application :=
  store.map (fun a => if a.id == i then f a else a)

/-- The `scanResult` enum of the RFIDScan schema. -/
inductive ScanResult where
  | success
  | denied
  | error
deriving DecidableEq, Repr

/-- One RFIDScan audit document. -/
structure ScanRecord where
  tagId : String
  user : Option Nat
  vehicle : Option Nat
  scanType : String
  direction : String
  scanResult : ScanResult
  scanMessage : String
  errorCode : Option String
  errorMessage : Option String
  scanTimestamp : DateTime
  systemStatus : String
  batteryLevel : Option Int
  signalStrength : Option Int
deriving DecidableEq, Repr

/-- The fields of a structured `{ tagId, ... }` scan payload. -/
structure JsonScanBody where
  tagId : Option String
  scanType : Option String
  direction : Option String
  systemStatus : Option String
  batteryLevel : Option Int
  signalStrength : Option Int
deriving DecidableEq, Repr

/-- The request body of POST /api/rfid/scan: either raw `text/plain`
containing only the tag, or a JSON object. -/
inductive ScanBody where
  | raw (text : String)
  | json (b : JsonScanBody)
deriving DecidableEq, Repr

/-- Models JS `String.prototype.trim()`: strip leading and trailing
whitespace. -/
def jsTrim (s : String) : String :=
  ⟨((s.data.dropWhile Char.isWhitespace).reverse.dropWhile
      Char.isWhitespace).reverse⟩

/-- The tag id POST /api/rfid/scan evaluates, with `none` meaning the
request is rejected with 400 and no ScanRecord.  Raw text bodies are
trimmed by the handler itself (`body.trim()` then the `if (!tagId)`
falsiness check); JSON bodies arrive with `tagId` already trim-sanitized
by the `validateRFIDScan` middleware, whose `.trim().notEmpty()` rule
rejects an empty-after-trim tag before the handler (also 400, also no
ScanRecord, so the model folds it into the same `none`). -/
def ScanBody.extractTagId : ScanBody → Option String
  | .raw t => let s := jsTrim t; if s = "" then none else some s
  | .json b =>
    match b.tagId with
    | none => none
    | some s => let t := jsTrim s; if t = "" then none else some t

/-- Models `typeof body === 'object' ? body.scanType : undefined`. -/
def ScanBody.scanTypeField : ScanBody → Option String
  | .raw _ => none
  | .json b => b.scanType

def ScanBody.directionField : ScanBody → Option String
  | .raw _ => none
  | .json b => b.direction

def ScanBody.systemStatusField : ScanBody → Option String
  | .raw _ => none
  | .json b => b.systemStatus

def ScanBody.batteryLevelField : ScanBody → Option Int
  | .raw _ => none
  | .json b => b.batteryLevel

def ScanBody.signalStrengthField : ScanBody → Option Int
  | .raw _ => none
  | .json b => b.signalStrength

/-- The snapshot returned in the 200 response of POST /api/rfid/scan. -/
structure SuccessPayload where
  id : Nat
  status : AppStatus
  tagId : String
  isActive : Bool
  assignedAt : DateTime
  validUntil : Option DateTime
  vehicleInfo : VehicleInfo
deriving DecidableEq, Repr

/-- Everything POST /api/rfid/scan produces: HTTP status, the `code` field
of the JSON response, the RFIDScan records saved during the call, the
application table after the call, and the success snapshot if any. -/
structure ScanOutcome where
  status : Nat
  code : Option String
  scans : List ScanRecord
  apps : List Application
  payload : Option SuccessPayload
deriving DecidableEq, Repr

/-- POST /api/rfid/scan (src/routes/rfid.js lines 14-159).  `now` is the
wall clock, `exc` models an exception thrown by the awaited application
lookup (`none` = the lookup succeeds). -/
def scanHandler (body : ScanBody) (store : List Application)
    (now : DateTime) (exc : Option String) : ScanOutcome :=
  match body.extractTagId with
  | none => ⟨400, some "TAG_REQUIRED", [], store, none⟩
  | some tagId =>
    match exc with
    | some msg =>
      -- catch block: logs an error-result scan, then responds 500.
      ⟨500, none,
        [⟨tagId, none, none,
          body.scanTypeField.getD "unknown",
          body.directionField.getD "unknown",
          .error, "System error occurred", some "SYSTEM_ERROR", some msg,
          now, body.systemStatusField.getD "offline", none, none⟩],
        store, none⟩
    | none =>
      let st := body.scanTypeField.getD "validation"
      let dir := body.directionField.getD "both"
      let sys := body.systemStatusField.getD "online"
      let bat := body.batteryLevelField
      let sig := body.signalStrengthField
      match findByTag store tagId with
      | none =>
        ⟨404, some "TAG_NOT_FOUND",
          [⟨tagId, none, none, st, dir, .denied, "RFID tag not found",
            some "TAG_NOT_FOUND", none, now, sys, bat, sig⟩],
          store, none⟩
      | some app =>
        let inactive : ScanOutcome :=
          ⟨423, some "TAG_INACTIVE",
            [⟨tagId, app.linkedUser, some app.id, st, dir, .denied,
              "RFID tag is not active", some "TAG_INACTIVE", none,
              now, sys, bat, sig⟩],
            store, none⟩
        match app.rfidInfo with
        | none => inactive
        | some r =>
          if !r.isActive then inactive
          else if app.status ≠ .completed then
            ⟨409, some "APPLICATION_NOT_COMPLETED",
              [⟨tagId, app.linkedUser, some app.id, st, dir, .denied,
                "Application not completed", some "APPLICATION_NOT_COMPLETED",
                none, now, sys, bat, sig⟩],
              store, none⟩
          else if (match r.validUntil with
                   | some vu => now.jsAfter vu
                   | none => false) then
            ⟨410, some "TAG_EXPIRED",
              [⟨tagId, app.linkedUser, some app.id, st, dir, .denied,
                "RFID tag expired", some "TAG_EXPIRED", none,
                now, sys, bat, sig⟩],
              store, none⟩
          else
            ⟨200, some "TAG_VALID",
              [⟨tagId, app.linkedUser, some app.id, st, dir, .success,
                "Access granted", none, none, now, sys, bat, sig⟩],
              store,
              some ⟨app.id, app.status, r.tagId, r.isActive, r.assignedAt,
                r.validUntil, app.vehicleInfo⟩⟩

/-- Result of GET /api/rfid/scanId: a bare status code; the route creates
no RFIDScan documents, so `scans` is `[]` on every path. -/
structure ScanIdOutcome where
  status : Nat
  scans : List ScanRecord
deriving DecidableEq, Repr

/-- GET /api/rfid/scanId (src/routes/rfid.js lines 378-413).  `tagIdQ` is
`req.query.tagId`; `exc` models an exception from the lookup. -/
def scanIdHandler (tagIdQ : Option String) (store : List Application)
    (now : DateTime) (exc : Option String) : ScanIdOutcome :=
  match (match tagIdQ with
         | none => none
         | some s => if s = "" then none else some s : Option String) with
  | none => ⟨400, []⟩
  | some tagId =>
    match exc with
    | some _ => ⟨500, []⟩
    | none =>
      match findByTag store tagId with
      | none => ⟨404, []⟩
      | some app =>
        match app.rfidInfo with
        | none => ⟨423, []⟩
        | some r =>
          if !r.isActive then ⟨423, []⟩
          else if app.status ≠ .completed then ⟨409, []⟩
          else if (match r.validUntil with
                   | some vu => now.jsAfter vu
                   | none => false) then ⟨410, []⟩
          else ⟨200, []⟩

/-- Result of an admin transition or a creation route: HTTP status, the
`error` message of the JSON response (`none` on success), and the
application table after the call. -/
structure TxnResult where
  status : Nat
  error : Option String
  store : List Application
deriving DecidableEq, Repr

/-- PUT /api/admin/applications/:applicationId/approve. -/
def approveApplication (store : List Application) (applicationId : Nat)
    (adminId : Nat) : TxnResult :=
  match findById store applicationId with
  | none => ⟨404, some "Vehicle pass application not found", store⟩
  | some app =>
    if app.status = .approved then
      ⟨400, some "Application is already approved", store⟩
    else
      ⟨200, none, updateById store applicationId (fun a =>
        { a with status := .approved, reviewedBy := some adminId })⟩

/-- PUT /api/admin/applications/:applicationId/reject. -/
def rejectApplication (store : List Application) (applicationId : Nat)
    (adminId : Nat) : TxnResult :=
  match findById store applicationId with
  | none => ⟨404, some "Vehicle pass application not found", store⟩
  | some app =>
    if app.status = .rejected then
      ⟨400, some "Application is already rejected", store⟩
    else
      ⟨200, none, updateById store applicationId (fun a =>
        { a with status := .rejected, reviewedBy := some adminId })⟩

/-- PUT /api/admin/applications/:applicationId/issue-rfid.  The empty
string stands for a missing `tagId` (JS falsiness). -/
def issueRfid (store : List Application) (applicationId : Nat)
    (tagId : String) (orReceiptNumber : Option String) (amount : Option Int)
    (cashierName : Option String) (adminId : Nat) (now : DateTime) :
    TxnResult :=
  if tagId = "" then ⟨400, some "RFID tag ID is required", store⟩
  else
    match findById store applicationId with
    | none => ⟨404, some "Vehicle pass application not found", store⟩
    | some app =>
      if app.status ≠ .approved then
        ⟨400, some "Application must be approved before issuing RFID tag", store⟩
      else
        match findByTag store tagId with
        | some _ =>
          ⟨400, some "RFID tag is already assigned to another application", store⟩
        | none =>
          ⟨200, none, updateById store applicationId (fun a =>
            { a with
              status := .completed,
              paymentInfo := some ⟨now, orReceiptNumber, amount, cashierName⟩,
              rfidInfo := some ⟨tagId, now, adminId, true, none⟩ })⟩

/-- POST /api/rfid/assign (src/routes/rfid.js lines 165-247).
`applicationId = none` stands for a missing id in the body. -/
def assignTag (store : List Application) (applicationId : Option Nat)
    (tagId : String) (adminId : Nat) (now : DateTime) : TxnResult :=
  match applicationId with
  | none => ⟨400, some "applicationId and tagId are required", store⟩
  | some appId =>
    if tagId = "" then ⟨400, some "applicationId and tagId are required", store⟩
    else
    let conflict : Bool :=
      match findByTag store tagId with
      | some e => e.id != appId
      | none => false
    if conflict then
      ⟨409, some "RFID tag is already assigned to another application", store⟩
    else
      match findById store appId with
      | none => ⟨404, some "Application not found", store⟩
      | some app =>
        if app.status ≠ .approved ∧ app.status ≠ .completed then
          ⟨409, some "Application must be approved or completed to assign RFID", store⟩
        else
          ⟨200, none, updateById store appId (fun a =>
            { a with
              rfidInfo := some ⟨tagId, now, adminId, true, some now.addOneYear⟩,
              status := .completed })⟩

/-- PUT /api/admin/applications/:applicationId/deactivate-rfid.  When the
completed application has no `rfidInfo`, the JS `rfidInfo.isActive = false`
throws and the catch block answers 500 with nothing saved. -/
def deactivateRfid (store : List Application) (applicationId : Nat) :
    TxnResult :=
  match findById store applicationId with
  | none => ⟨404, some "Vehicle pass application not found", store⟩
  | some app =>
    if app.status ≠ .completed then
      ⟨400, some "Application must be completed to deactivate RFID", store⟩
    else
      match app.rfidInfo with
      | none => ⟨500, some "Failed to deactivate RFID tag", store⟩
      | some _ =>
        ⟨200, none, updateById store applicationId (fun a =>
          { a with rfidInfo := a.rfidInfo.map (fun r =>
              { r with isActive := false }) })⟩

/-- The authenticated caller of a file route. -/
structure Requester where
  id : Nat
  role : String
deriving DecidableEq, Repr

/-- PUT /api/vehicle-passes/files/:applicationId/:fileType.  `upload` is
`req.file` (`none` = nothing uploaded); a walk-in application without
`linkedUser` makes the JS `linkedUser.toString()` throw, answered 500 by
the catch block. -/
def updateFileAttachment (store : List Application) (applicationId : Nat)
    (fileTypeStr : String) (upload : Option FileRef) (requester : Requester) :
    TxnResult :=
  match fileTypeOf? fileTypeStr with
  | none => ⟨400, some "Invalid file type", store⟩
  | some ft =>
    match upload with
    | none => ⟨400, some "No file uploaded", store⟩
    | some file =>
      match findById store applicationId with
      | none => ⟨404, some "Application not found", store⟩
      | some app =>
        match app.linkedUser with
        | none => ⟨500, some "Failed to update file", store⟩
        | some owner =>
          if ¬ (requester.role = "admin") ∧ ¬ (owner = requester.id) then
            ⟨403, some "Access denied", store⟩
          else if app.status = .approved ∨ app.status = .rejected then
            ⟨400, some "Cannot update files for processed applications", store⟩
          else
            ⟨200, none, updateById store applicationId (fun a =>
              let base := a.attachments.getD emptyAttachments
              { a with attachments := some (setAttachment base ft file) })⟩

/-- DELETE /api/vehicle-passes/files/:applicationId/:fileType. -/
def deleteFileAttachment (store : List Application) (applicationId : Nat)
    (fileTypeStr : String) (requester : Requester) : TxnResult :=
  match fileTypeOf? fileTypeStr with
  | none => ⟨400, some "Invalid file type", store⟩
  | some ft =>
    match findById store applicationId with
    | none => ⟨404, some "Application not found", store⟩
    | some app =>
      match app.linkedUser with
      | none => ⟨500, some "Failed to delete file", store⟩
      | some owner =>
        if ¬ (requester.role = "admin") ∧ ¬ (owner = requester.id) then
          ⟨403, some "Access denied", store⟩
        else if app.status = .approved ∨ app.status = .rejected then
          ⟨400, some "Cannot delete files from processed applications", store⟩
        else
          match app.attachments with
          | none => ⟨404, some "File not found", store⟩
          | some at_ =>
            match getAttachment at_ ft with
            | none => ⟨404, some "File not found", store⟩
            | some _ =>
              ⟨200, none, updateById store applicationId (fun a =>
                { a with attachments :=
                    let cleared := clearAttachment
                      (a.attachments.getD emptyAttachments) ft
                    if cleared.isEmptyA then none else some cleared })⟩

def validAffiliations : List String := ["student", "personnel", "other"]

def validUserTypes : List String := ["owner", "driver", "passenger"]

/-- JS `plateNumber.toUpperCase()` (character-wise uppercase). -/
def jsToUpper (s : String) : String :=
  ⟨s.data.map Char.toUpper⟩

/-- Models `vehicleType.toString().toLowerCase().replace(/\s+/g, '_')` from the
walk-in route: lowercase, each maximal whitespace run becomes one `_`. -/
def jsSlug (s : String) : String :=
  (s.toList.foldl (fun (acc : String × Bool) c =>
    if c.isWhitespace then
      if acc.2 then acc else (acc.1.push '_', true)
    else (acc.1.push c.toLower, false)) ("", false)).1

/-- The `duplicateFields` list computed by both creation routes from the
first matching document (`cmpPlate` is the plate value the route compares
with: raw for the user route, uppercased for the walk-in route). -/
def duplicateFields (dup : Application) (cmpPlate orNumber crNumber : String) :
    List String :=
  (if dup.vehicleInfo.plateNumber = cmpPlate then ["plate number"] else [])
    ++ (if dup.vehicleInfo.orNumber = orNumber then ["OR number"] else [])
    ++ (if dup.vehicleInfo.crNumber = crNumber then ["CR number"] else [])

/-- The body of POST /api/vehicle-passes/application, restricted to the
fields the route's checks read; fields the handler merely copies into the
new document (names, contact, purpose, attachments upload) are elided.
The empty string models a missing (falsy) field. -/
structure UserCreateRequest where
  homeAddress : String
  schoolAffiliation : String
  idNumber : String
  vehicleUserType : String
  vehicleInfo : VehicleInfo
deriving DecidableEq, Repr

/-- The `$or` duplicate-vehicle query, comparing a stored document against
a plate value (`cmpPlate`) and OR/CR numbers. -/
def dupVehiclePred (cmpPlate orNumber crNumber : String) (a : Application) :
    Bool :=
  a.vehicleInfo.plateNumber == cmpPlate
    || a.vehicleInfo.orNumber == orNumber
    || a.vehicleInfo.crNumber == crNumber

/-- The user route's own-application lookup:
`findOne({ linkedUser, 'vehicleInfo.plateNumber' })`. -/
def ownPlatePred (userId : Nat) (plate : String) (a : Application) : Bool :=
  a.linkedUser == some userId && a.vehicleInfo.plateNumber == plate

/-- Duplicate-vehicle error message of the user route. -/
def userDupMessage (fields : List String) : String :=
  "Vehicle with the same " ++ String.intercalate ", " fields
    ++ " has already been registered by another user"

/-- Duplicate-vehicle error message of the walk-in route. -/
def walkinDupMessage (fields : List String) : String :=
  "Vehicle with the same " ++ String.intercalate ", " fields
    ++ " has already been registered"

/-- POST /api/vehicle-passes/application (src/routes/vehicle-passes.js
lines 14-260): the user self-application route.  `users` is the User
collection (ids only), `newId` the id Mongo would give the inserted
document. -/
def userCreateApplication (store : List Application) (users : List Nat)
    (userId : Nat) (req : UserCreateRequest) (newId : Nat) : TxnResult :=
  if req.homeAddress = "" ∨ req.schoolAffiliation = "" ∨ req.idNumber = ""
      ∨ req.vehicleUserType = "" then
    ⟨400, some "Missing required fields", store⟩
  else if ¬ validAffiliations.contains req.schoolAffiliation then
    ⟨400, some "Invalid school affiliation", store⟩
  else if ¬ validUserTypes.contains req.vehicleUserType then
    ⟨400, some "Invalid vehicle user type", store⟩
  else if ¬ users.contains userId then
    ⟨404, some "User not found", store⟩
  else
    match store.find? (ownPlatePred userId req.vehicleInfo.plateNumber) with
    | some _ =>
      ⟨400, some "An application already exists for this vehicle plate number",
        store⟩
    | none =>
      match store.find? (dupVehiclePred req.vehicleInfo.plateNumber
          req.vehicleInfo.orNumber req.vehicleInfo.crNumber) with
      | some dup =>
        ⟨400, some (userDupMessage
          (duplicateFields dup req.vehicleInfo.plateNumber
            req.vehicleInfo.orNumber req.vehicleInfo.crNumber)), store⟩
      | none =>
        ⟨201, none,
          store ++ [⟨newId, some userId, .pending, none, req.vehicleInfo,
            none, none, none⟩]⟩

/-- The body of POST /api/walkins/application, restricted to the fields
the route's checks read (the empty string models a missing field). -/
structure WalkinRequest where
  familyName : String
  givenName : String
  homeAddress : String
  schoolAffiliation : String
  idNumber : String
  vehicleUserType : String
  vehicleType : String
  plateNumber : String
  orNumber : String
  crNumber : String
  driverName : Option String
  driverLicense : Option String
deriving DecidableEq, Repr

/-- POST /api/walkins/application: the admin walk-in creation route.  Note
it uppercases the incoming plate before every comparison and before
storing it. -/
def walkinCreateApplication (store : List Application) (req : WalkinRequest)
    (newId : Nat) : TxnResult :=
  if req.familyName = "" ∨ req.givenName = "" ∨ req.homeAddress = ""
      ∨ req.schoolAffiliation = "" ∨ req.idNumber = ""
      ∨ req.vehicleUserType = "" ∨ req.vehicleType = ""
      ∨ req.plateNumber = "" ∨ req.orNumber = "" ∨ req.crNumber = "" then
    ⟨400, some "Missing required fields", store⟩
  else if ¬ validAffiliations.contains req.schoolAffiliation then
    ⟨400, some "Invalid school affiliation", store⟩
  else if ¬ validUserTypes.contains req.vehicleUserType then
    ⟨400, some "Invalid vehicle user type", store⟩
  else
    let plateU := jsToUpper req.plateNumber
    match store.find? (fun a => a.vehicleInfo.plateNumber == plateU) with
    | some _ =>
      ⟨400, some "This vehicle already has a walk-in application", store⟩
    | none =>
      match store.find? (dupVehiclePred plateU req.orNumber req.crNumber) with
      | some dup =>
        ⟨400, some (walkinDupMessage
          (duplicateFields dup plateU req.orNumber req.crNumber)), store⟩
      | none =>
        ⟨201, none,
          store ++ [⟨newId, none, .pending, none,
            ⟨jsSlug req.vehicleType, plateU, req.orNumber, req.crNumber,
              req.driverName, req.driverLicense⟩,
            none, none, none⟩]⟩

/-- The verdicts of the scan evaluator (§4.2 of the design). -/
inductive Verdict where
  | tagNotFound
  | tagInactive
  | appNotCompleted
  | tagExpired
  | tagValid
deriving DecidableEq, Repr

/-- The `code` string each verdict carries on the wire. -/
def Verdict.codeStr : Verdict → String
  | .tagNotFound => "TAG_NOT_FOUND"
  | .tagInactive => "TAG_INACTIVE"
  | .appNotCompleted => "APPLICATION_NOT_COMPLETED"
  | .tagExpired => "TAG_EXPIRED"
  | .tagValid => "TAG_VALID"

/-- The HTTP status each verdict maps to. -/
def Verdict.httpStatus : Verdict → Nat
  | .tagNotFound => 404
  | .tagInactive => 423
  | .appNotCompleted => 409
  | .tagExpired => 410
  | .tagValid => 200

/-- The check order the design fixes for the evaluator: TAG_NOT_FOUND,
then TAG_INACTIVE (rfidInfo absent or inactive), then
APPLICATION_NOT_COMPLETED, then TAG_EXPIRED (validUntil strictly before
now), first match wins, else TAG_VALID. -/
def firstMatchVerdict (found : Option Application) (now : DateTime) :
    Verdict :=
  match found with
  | none => .tagNotFound
  | some app =>
    match app.rfidInfo with
    | none => .tagInactive
    | some r =>
      if !r.isActive then .tagInactive
      else if app.status ≠ .completed then .appNotCompleted
      else if (match r.validUntil with
               | some vu => now.jsAfter vu
               | none => false) then .tagExpired
      else .tagValid

/-! Concrete fixtures used by witnesses and counterexamples. -/

def vi1 : VehicleInfo := ⟨"car", "ABC123", "OR1", "CR1", none, none⟩

def vi2 : VehicleInfo := ⟨"motorcycle", "XYZ789", "OR2", "CR2", none, none⟩

def d2024 : DateTime := ⟨2024, 100⟩

def d2025 : DateTime := ⟨2025, 100⟩

def d2026 : DateTime := ⟨2026, 100⟩

/-- C8: scan evaluation is read-only with respect to the application
table: whatever the body, store, clock, or exception, the table after
POST /api/rfid/scan equals the table before. -/
theorem scan_readonly_apps (body : ScanBody) (store : List Application)
    (now : DateTime) (exc : Option String) :
    (scanHandler body store now exc).apps = store := by
  unfold scanHandler
  repeat' split
  all_goals rfl

/-- C2: POST /api/rfid/scan writes exactly one ScanRecord whenever the
request carries a (non-empty) tag id — on every outcome including the
500 system-error path — and writes none when the tag id is missing. -/
theorem scan_audit_exactly_once (body : ScanBody) (store : List Application)
    (now : DateTime) (exc : Option String) :
    (scanHandler body store now exc).scans.length
      = (match body.extractTagId with | none => 0 | some _ => 1) := by
  unfold scanHandler
  repeat' split
  all_goals rfl

/-- C1: for every scan request carrying a tag id, POST /api/rfid/scan
answers with the verdict of the first matching check in the fixed order
TAG_NOT_FOUND (404), TAG_INACTIVE (423), APPLICATION_NOT_COMPLETED (409),
TAG_EXPIRED (410), TAG_VALID (200); in particular an inactive tag always
yields TAG_INACTIVE regardless of status or validUntil. -/
theorem scan_check_order (body : ScanBody) (tagId : String)
    (store : List Application) (now : DateTime)
    (h : body.extractTagId = some tagId) :
    ((scanHandler body store now none).code
        = some (firstMatchVerdict (findByTag store tagId) now).codeStr
      ∧ (scanHandler body store now none).status
        = (firstMatchVerdict (findByTag store tagId) now).httpStatus)
    ∧ (∀ app r, findByTag store tagId = some app → app.rfidInfo = some r →
        r.isActive = false →
        (scanHandler body store now none).code = some "TAG_INACTIVE"
          ∧ (scanHandler body store now none).status = 423) := by
  constructor
  · rcases hf : findByTag store tagId with _ | app
    · simp [scanHandler, firstMatchVerdict, h, hf, Verdict.codeStr,
        Verdict.httpStatus]
    · rcases hr : app.rfidInfo with _ | r
      · simp [scanHandler, firstMatchVerdict, h, hf, hr, Verdict.codeStr,
          Verdict.httpStatus]
      · rcases hact : r.isActive
        · simp [scanHandler, firstMatchVerdict, h, hf, hr, hact,
            Verdict.codeStr, Verdict.httpStatus]
        · by_cases hst : app.status = AppStatus.completed
          · rcases hvu : r.validUntil with _ | vu
            · simp [scanHandler, firstMatchVerdict, h, hf, hr, hact, hst, hvu,
                Verdict.codeStr, Verdict.httpStatus]
            · by_cases hex : now.jsAfter vu
              · simp [scanHandler, firstMatchVerdict, h, hf, hr, hact, hst,
                  hvu, hex, Verdict.codeStr, Verdict.httpStatus]
              · simp [scanHandler, firstMatchVerdict, h, hf, hr, hact, hst,
                  hvu, hex, Verdict.codeStr, Verdict.httpStatus]
          · simp [scanHandler, firstMatchVerdict, h, hf, hr, hact, hst,
              Verdict.codeStr, Verdict.httpStatus]
  · intro app r hf hr hact
    constructor
    · simp [scanHandler, h, hf, hr, hact]
    · simp [scanHandler, h, hf, hr, hact]

/-- A JSON scan body carrying only a tag id. -/
def jsonTagBody (t : String) : ScanBody :=
  .json ⟨some t, none, none, none, none, none⟩

def rfidT1Inactive : RfidInfo := ⟨"T1", d2024, 9, false, some d2026⟩

def appT1Inactive : Application :=
  ⟨1, some 7, .completed, none, vi1, some rfidT1Inactive, none, none⟩

/-- Witness for C1 on a concrete inactive tag: the verdict is TAG_INACTIVE
with HTTP 423 even though the application is completed and unexpired. -/
theorem scan_check_order_witness :
    (scanHandler (jsonTagBody "T1") [appT1Inactive] d2025 none).code
        = some "TAG_INACTIVE"
      ∧ (scanHandler (jsonTagBody "T1") [appT1Inactive] d2025 none).status
        = 423 :=
  (scan_check_order (jsonTagBody "T1") "T1" [appT1Inactive] d2025
      (by decide)).2
    appT1Inactive rfidT1Inactive (by decide) (by decide) (by decide)

/-- C7: for an active tag on a completed application, the verdict is
TAG_EXPIRED exactly when validUntil exists and is strictly before now;
when validUntil is absent, equal to now, or later, the verdict is
TAG_VALID with the application's status, tag and vehicle snapshot. -/
theorem scan_expiry_boundary (body : ScanBody) (tagId : String)
    (store : List Application) (app : Application) (r : RfidInfo)
    (now : DateTime)
    (h : body.extractTagId = some tagId)
    (hf : findByTag store tagId = some app)
    (hr : app.rfidInfo = some r)
    (hact : r.isActive = true)
    (hst : app.status = .completed) :
    (((scanHandler body store now none).code = some "TAG_EXPIRED"
        ∧ (scanHandler body store now none).status = 410)
      ↔ ∃ vu, r.validUntil = some vu ∧ now.jsAfter vu = true)
    ∧ (∀ vu, r.validUntil = some vu → now.jsAfter vu = false →
        (scanHandler body store now none).status = 200
          ∧ (scanHandler body store now none).code = some "TAG_VALID"
          ∧ (scanHandler body store now none).payload
            = some ⟨app.id, app.status, r.tagId, r.isActive, r.assignedAt,
                r.validUntil, app.vehicleInfo⟩)
    ∧ (r.validUntil = none →
        (scanHandler body store now none).status = 200
          ∧ (scanHandler body store now none).code = some "TAG_VALID"
          ∧ (scanHandler body store now none).payload
            = some ⟨app.id, app.status, r.tagId, r.isActive, r.assignedAt,
                r.validUntil, app.vehicleInfo⟩) := by
  refine ⟨?_, ?_, ?_⟩
  · rcases hvu : r.validUntil with _ | vu
    · simp [scanHandler, h, hf, hr, hact, hst, hvu]
    · by_cases hex : now.jsAfter vu
      · simp [scanHandler, h, hf, hr, hact, hst, hvu, hex]
      · simp [scanHandler, h, hf, hr, hact, hst, hvu, hex]
  · intro vu hvu hex
    refine ⟨?_, ?_, ?_⟩ <;>
      simp [scanHandler, h, hf, hr, hact, hst, hvu, hex]
  · intro hvu
    refine ⟨?_, ?_, ?_⟩ <;>
      simp [scanHandler, h, hf, hr, hact, hst, hvu]

def rfidT2Active : RfidInfo := ⟨"T2", d2024, 9, true, some d2026⟩

def appT2Active : Application :=
  ⟨2, some 8, .completed, none, vi2, some rfidT2Active, none, none⟩

/-- Witness for C7 on a concrete active, completed, unexpired tag: the
scan succeeds with the snapshot. -/
theorem scan_expiry_boundary_witness :
    (scanHandler (jsonTagBody "T2") [appT2Active] d2025 none).status = 200
      ∧ (scanHandler (jsonTagBody "T2") [appT2Active] d2025 none).code
        = some "TAG_VALID"
      ∧ (scanHandler (jsonTagBody "T2") [appT2Active] d2025 none).payload
        = some ⟨2, .completed, "T2", true, d2024, some d2026, vi2⟩ :=
  (scan_expiry_boundary (jsonTagBody "T2") "T2" [appT2Active] appT2Active
      rfidT2Active d2025 (by decide) (by decide) (by decide) (by decide)
      (by decide)).2.1
    d2026 (by decide) (by decide)

/-- C10 amended: for every store, clock and exception state, and every
query tag equal to its own trimmed form (in particular tags without
surrounding whitespace, and the missing/empty 400 and exception 500
paths), GET /api/rfid/scanId answers exactly the HTTP status POST
/api/rfid/scan would answer for a body carrying that tag id, and creates
no ScanRecord on any path.  The trim-invariance hypothesis is necessary:
POST trims the tag while GET does not. -/
theorem scanId_matches_scan_on_trimmed (tagIdQ : Option String)
    (store : List Application) (now : DateTime) (exc : Option String)
    (h : ∀ s, tagIdQ = some s → jsTrim s = s) :
    (scanIdHandler tagIdQ store now exc).status
      = (scanHandler (.json ⟨tagIdQ, none, none, none, none, none⟩)
          store now exc).status
    ∧ (scanIdHandler tagIdQ store now exc).scans = [] := by
  constructor
  · rcases tagIdQ with _ | s
    · rfl
    · have hts : jsTrim s = s := h s rfl
      by_cases hs : s = ""
      · subst hs
        simp [scanIdHandler, scanHandler, ScanBody.extractTagId, hts]
      · rcases exc with _ | msg
        · rcases hf : findByTag store s with _ | app
          · simp [scanIdHandler, scanHandler, ScanBody.extractTagId, hts,
              hs, hf]
          · rcases hr : app.rfidInfo with _ | r
            · simp [scanIdHandler, scanHandler, ScanBody.extractTagId, hts,
                hs, hf, hr]
            · rcases hact : r.isActive
              · simp [scanIdHandler, scanHandler, ScanBody.extractTagId,
                  hts, hs, hf, hr, hact]
              · by_cases hst : app.status = AppStatus.completed
                · rcases hvu : r.validUntil with _ | vu
                  · simp [scanIdHandler, scanHandler, ScanBody.extractTagId,
                      hts, hs, hf, hr, hact, hst, hvu]
                  · by_cases hex : now.jsAfter vu
                    · simp [scanIdHandler, scanHandler,
                        ScanBody.extractTagId, hts, hs, hf, hr, hact, hst,
                        hvu, hex]
                    · simp [scanIdHandler, scanHandler,
                        ScanBody.extractTagId, hts, hs, hf, hr, hact, hst,
                        hvu, hex]
                · simp [scanIdHandler, scanHandler, ScanBody.extractTagId,
                    hts, hs, hf, hr, hact, hst]
        · simp [scanIdHandler, scanHandler, ScanBody.extractTagId, hts, hs]
  · unfold scanIdHandler
    repeat' split
    all_goals rfl

/-- Counterexample to C10 as stated: POST /api/rfid/scan trims the tag
(raw bodies in the handler, JSON bodies via the validateRFIDScan
sanitizer) while GET /api/rfid/scanId uses the query value untrimmed, so
for the padded tag of an inactive bound tag POST answers 423 where GET
answers 404, and for a whitespace-only tag POST answers 400 where GET
answers 404. -/
theorem scanId_not_scan_twin_cex :
    (scanHandler (ScanBody.raw " T1") [appT1Inactive] d2025 none).status
        = 423
      ∧ (scanHandler (jsonTagBody " T1") [appT1Inactive] d2025 none).status
        = 423
      ∧ (scanIdHandler (some " T1") [appT1Inactive] d2025 none).status = 404
      ∧ (scanHandler (ScanBody.raw " ") [appT1Inactive] d2025 none).status
        = 400
      ∧ (scanIdHandler (some " ") [appT1Inactive] d2025 none).status
        = 404 := by decide

/-- Witness for the amended C10 at a trim-invariant tag bound to a
concrete inactive application: both endpoints answer 423 and GET writes
nothing. -/
theorem scanId_matches_scan_on_trimmed_witness :
    (scanIdHandler (some "T1") [appT1Inactive] d2025 none).status
        = (scanHandler (.json ⟨some "T1", none, none, none, none, none⟩)
            [appT1Inactive] d2025 none).status
      ∧ (scanIdHandler (some "T1") [appT1Inactive] d2025 none).scans
        = [] :=
  scanId_matches_scan_on_trimmed (some "T1") [appT1Inactive] d2025 none
    (by decide)

/-- C3: issue-rfid on a non-approved application fails (NOT_APPROVED path)
with the table untouched; an already-bound tag fails (TAG_ALREADY_ASSIGNED
path) with the table untouched; on success it writes the payment record,
the rfidInfo (tagId, assignedAt = now, assignedBy = admin, isActive =
true) and sets the status to completed. -/
theorem issueRfid_contract (store : List Application) (i : Nat)
    (tag : String) (orR : Option String) (amt : Option Int)
    (cash : Option String) (adminId : Nat) (now : DateTime)
    (app : Application)
    (hfind : findById store i = some app)
    (htag : tag ≠ "") :
    (app.status ≠ .approved →
      issueRfid store i tag orR amt cash adminId now
        = ⟨400, some "Application must be approved before issuing RFID tag",
            store⟩)
    ∧ (∀ other, app.status = .approved → findByTag store tag = some other →
        issueRfid store i tag orR amt cash adminId now
          = ⟨400, some "RFID tag is already assigned to another application",
              store⟩)
    ∧ (app.status = .approved → findByTag store tag = none →
        issueRfid store i tag orR amt cash adminId now
          = ⟨200, none, updateById store i (fun a =>
              { a with
                status := .completed,
                paymentInfo := some ⟨now, orR, amt, cash⟩,
                rfidInfo := some ⟨tag, now, adminId, true, none⟩ })⟩) := by
  refine ⟨?_, ?_, ?_⟩
  · intro hst
    simp [issueRfid, htag, hfind, hst]
  · intro other hst hother
    simp [issueRfid, htag, hfind, hst, hother]
  · intro hst hnone
    simp [issueRfid, htag, hfind, hst, hnone]

def appPending3 : Application := ⟨3, some 7, .pending, none, vi1, none, none, none⟩

def appApproved4 : Application := ⟨4, some 8, .approved, none, vi2, none, none, none⟩

/-- Witness for C3: a pending application cannot be issued a tag; a tag
already on another application is refused; an approved application with a
fresh tag is completed with payment and tag written. -/
theorem issueRfid_contract_witness :
    issueRfid [appPending3] 3 "T9" none none none 9 d2025
        = ⟨400, some "Application must be approved before issuing RFID tag",
            [appPending3]⟩
      ∧ issueRfid [appApproved4, appT2Active] 4 "T2" none none none 9 d2025
        = ⟨400, some "RFID tag is already assigned to another application",
            [appApproved4, appT2Active]⟩
      ∧ issueRfid [appApproved4] 4 "T9" none none none 9 d2025
        = ⟨200, none, updateById [appApproved4] 4 (fun a =>
            { a with
              status := .completed,
              paymentInfo := some ⟨d2025, none, none, none⟩,
              rfidInfo := some ⟨"T9", d2025, 9, true, none⟩ })⟩ :=
  ⟨(issueRfid_contract [appPending3] 3 "T9" none none none 9 d2025
      appPending3 (by decide) (by decide)).1 (by decide),
   (issueRfid_contract [appApproved4, appT2Active] 4 "T2" none none none 9
      d2025 appApproved4 (by decide) (by decide)).2.1 appT2Active
      (by decide) (by decide),
   (issueRfid_contract [appApproved4] 4 "T9" none none none 9 d2025
      appApproved4 (by decide) (by decide)).2.2 (by decide) (by decide)⟩

/-- C5: assign succeeds exactly from approved or completed status with a
tag not bound to a different application, setting validUntil to one year
after the assignment time, isActive to true, and forcing status to
completed; a wrong status or a tag bound elsewhere fails with the table
untouched. -/
theorem assignTag_contract (store : List Application) (appId : Nat)
    (tag : String) (adminId : Nat) (now : DateTime) (app : Application)
    (hfind : findById store appId = some app) :
    ((app.status = .approved ∨ app.status = .completed) →
      (∀ e, findByTag store tag = some e → e.id = appId) →
      tag ≠ "" →
      assignTag store (some appId) tag adminId now
        = ⟨200, none, updateById store appId (fun a =>
            { a with
              rfidInfo := some ⟨tag, now, adminId, true,
                some now.addOneYear⟩,
              status := .completed })⟩)
    ∧ (app.status ≠ .approved ∧ app.status ≠ .completed →
        (assignTag store (some appId) tag adminId now).store = store
          ∧ (assignTag store (some appId) tag adminId now).status ≠ 200)
    ∧ (∀ e, findByTag store tag = some e → e.id ≠ appId → tag ≠ "" →
        assignTag store (some appId) tag adminId now
          = ⟨409, some "RFID tag is already assigned to another application",
              store⟩) := by
  refine ⟨?_, ?_, ?_⟩
  · intro hst hconf htag
    rcases he : findByTag store tag with _ | e
    · rcases hst with hst | hst <;> simp [assignTag, htag, he, hfind, hst]
    · have hid : e.id = appId := hconf e he
      rcases hst with hst | hst <;>
        simp [assignTag, htag, he, hid, hfind, hst]
  · intro hny
    by_cases htag : tag = ""
    · simp [assignTag, htag]
    · rcases he : findByTag store tag with _ | e
      · simp [assignTag, htag, he, hfind, hny.1, hny.2]
      · by_cases hid : e.id = appId
        · simp [assignTag, htag, he, hid, hfind, hny.1, hny.2]
        · simp [assignTag, htag, he, hid]
  · intro e he hne htag
    simp [assignTag, htag, he, hne]

/-- Witness for C5: an approved application receives the tag with a
one-year validity and completed status; a pending one is refused; a tag
on a different application is refused. -/
theorem assignTag_contract_witness :
    assignTag [appApproved4] (some 4) "T9" 9 d2025
        = ⟨200, none, updateById [appApproved4] 4 (fun a =>
            { a with
              rfidInfo := some ⟨"T9", d2025, 9, true, some d2025.addOneYear⟩,
              status := .completed })⟩
      ∧ ((assignTag [appPending3] (some 3) "T9" 9 d2025).store
            = [appPending3]
          ∧ (assignTag [appPending3] (some 3) "T9" 9 d2025).status ≠ 200)
      ∧ assignTag [appApproved4, appT2Active] (some 4) "T2" 9 d2025
        = ⟨409, some "RFID tag is already assigned to another application",
            [appApproved4, appT2Active]⟩ :=
  ⟨(assignTag_contract [appApproved4] 4 "T9" 9 d2025 appApproved4
      (by decide)).1 (by decide) (by decide) (by decide),
   (assignTag_contract [appPending3] 3 "T9" 9 d2025 appPending3
      (by decide)).2.1 (by decide),
   (assignTag_contract [appApproved4, appT2Active] 4 "T2" 9 d2025
      appApproved4 (by decide)).2.2 appT2Active (by decide) (by decide)
      (by decide)⟩

def appRejected5 : Application := ⟨5, some 7, .rejected, none, vi1, none, none, none⟩

/-- Counterexample to C4: the approve route only guards against an
already-approved application, so approving a rejected one succeeds and
moves its status to approved — `rejected` is not terminal. -/
theorem rejected_not_terminal_cex :
    (approveApplication [appRejected5] 5 9).status = 200
      ∧ (approveApplication [appRejected5] 5 9).store.map Application.status
        = [.approved] := by decide

/-- C4 amended: a rejected application is left untouched by reject,
issue-rfid, assign and deactivate, but approve moves it to approved
(setting the reviewer), because its only guard is against an
already-approved status. -/
theorem rejected_terminal_except_approve (store : List Application)
    (i : Nat) (app : Application) (adminId : Nat) (tag : String)
    (orR : Option String) (amt : Option Int) (cash : Option String)
    (now : DateTime)
    (hfind : findById store i = some app)
    (hst : app.status = .rejected) :
    (rejectApplication store i adminId).store = store
    ∧ (issueRfid store i tag orR amt cash adminId now).store = store
    ∧ (assignTag store (some i) tag adminId now).store = store
    ∧ (deactivateRfid store i).store = store
    ∧ (approveApplication store i adminId).store
        = updateById store i (fun a =>
            { a with status := .approved, reviewedBy := some adminId }) := by
  refine ⟨?_, ?_, ?_, ?_, ?_⟩
  · simp [rejectApplication, hfind, hst]
  · by_cases htag : tag = ""
    · simp [issueRfid, htag]
    · simp [issueRfid, htag, hfind, hst]
  · by_cases htag : tag = ""
    · simp [assignTag, htag]
    · rcases he : findByTag store tag with _ | e
      · simp [assignTag, htag, he, hfind, hst]
      · by_cases hid : e.id = i
        · simp [assignTag, htag, he, hid, hfind, hst]
        · simp [assignTag, htag, he, hid]
  · simp [deactivateRfid, hfind, hst]
  · simp [approveApplication, hfind, hst]

/-- Witness for the amended C4 on a concrete rejected application. -/
theorem rejected_terminal_except_approve_witness :
    (rejectApplication [appRejected5] 5 9).store = [appRejected5]
    ∧ (issueRfid [appRejected5] 5 "T9" none none none 9 d2025).store
        = [appRejected5]
    ∧ (assignTag [appRejected5] (some 5) "T9" 9 d2025).store
        = [appRejected5]
    ∧ (deactivateRfid [appRejected5] 5).store = [appRejected5]
    ∧ (approveApplication [appRejected5] 5 9).store
        = updateById [appRejected5] 5 (fun a =>
            { a with status := .approved, reviewedBy := some 9 }) :=
  rejected_terminal_except_approve [appRejected5] 5 appRejected5 9 "T9"
    none none none d2025 (by decide) (by decide)

def fileA : FileRef := ⟨11, "or-copy.pdf", 100, "application/pdf"⟩

def appCompleted6 : Application :=
  ⟨6, some 7, .completed, none, vi1, some rfidT2Active, none, none⟩

/-- Counterexample to C6: the file routes only freeze attachments for
approved or rejected applications, so a completed (non-pending)
application still accepts an attachment update — it succeeds and changes
the stored attachments. -/
theorem attachments_mutable_when_completed_cex :
    (updateFileAttachment [appCompleted6] 6 "orCopy" (some fileA)
        ⟨9, "admin"⟩).status = 200
      ∧ (updateFileAttachment [appCompleted6] 6 "orCopy" (some fileA)
          ⟨9, "admin"⟩).store ≠ [appCompleted6] := by decide

/-- C6 amended: attachments are frozen once the status is approved or
rejected — every add, replace or delete then fails and leaves the table
untouched — while a pending or completed application remains editable. -/
theorem attachments_frozen_after_review (store : List Application)
    (i : Nat) (app : Application) (ftStr : String)
    (upload : Option FileRef) (requester : Requester)
    (hfind : findById store i = some app)
    (hst : app.status = .approved ∨ app.status = .rejected) :
    ((updateFileAttachment store i ftStr upload requester).store = store
      ∧ (updateFileAttachment store i ftStr upload requester).status ≠ 200)
    ∧ ((deleteFileAttachment store i ftStr requester).store = store
      ∧ (deleteFileAttachment store i ftStr requester).status ≠ 200) := by
  constructor
  · rcases hft : fileTypeOf? ftStr with _ | ft
    · simp [updateFileAttachment, hft]
    · rcases upload with _ | file
      · simp [updateFileAttachment, hft]
      · rcases hlu : app.linkedUser with _ | owner
        · simp [updateFileAttachment, hft, hfind, hlu]
        · by_cases hperm : ¬ (requester.role = "admin")
              ∧ ¬ (owner = requester.id)
          · simp [updateFileAttachment, hft, hfind, hlu, hperm]
          · rcases hst with hst | hst <;>
              simp [updateFileAttachment, hft, hfind, hlu, hperm, hst]
  · rcases hft : fileTypeOf? ftStr with _ | ft
    · simp [deleteFileAttachment, hft]
    · rcases hlu : app.linkedUser with _ | owner
      · simp [deleteFileAttachment, hft, hfind, hlu]
      · by_cases hperm : ¬ (requester.role = "admin")
            ∧ ¬ (owner = requester.id)
        · simp [deleteFileAttachment, hft, hfind, hlu, hperm]
        · rcases hst with hst | hst <;>
            simp [deleteFileAttachment, hft, hfind, hlu, hperm, hst]

def appApproved8 : Application :=
  ⟨8, some 7, .approved, none, vi2, none, none,
    some ⟨some fileA, none, none, none, none⟩⟩

/-- Witness for the amended C6 on a concrete approved application. -/
theorem attachments_frozen_after_review_witness :
    (((updateFileAttachment [appApproved8] 8 "orCopy" (some fileA)
          ⟨9, "admin"⟩).store = [appApproved8]
      ∧ (updateFileAttachment [appApproved8] 8 "orCopy" (some fileA)
          ⟨9, "admin"⟩).status ≠ 200)
    ∧ ((deleteFileAttachment [appApproved8] 8 "orCopy" ⟨9, "admin"⟩).store
          = [appApproved8]
      ∧ (deleteFileAttachment [appApproved8] 8 "orCopy"
          ⟨9, "admin"⟩).status ≠ 200)) :=
  attachments_frozen_after_review [appApproved8] 8 appApproved8 "orCopy"
    (some fileA) ⟨9, "admin"⟩ (by decide) (by decide)

def wreqDupPlate : WalkinRequest :=
  ⟨"Doe", "Jane", "Somewhere St", "student", "ID-1", "owner", "car",
    "ABC123", "OR9", "CR9", none, none⟩

/-- Counterexample to C9: a walk-in creation whose plate duplicates an
existing application is intercepted by the plate-only walk-in check and
fails with the generic walk-in message, not with a duplicate-vehicle
error naming `plate number`; no record is created. -/
theorem create_duplicate_plate_generic_cex :
    (walkinCreateApplication [appPending3] wreqDupPlate 50).error
        = some "This vehicle already has a walk-in application"
      ∧ (walkinCreateApplication [appPending3] wreqDupPlate 50).error
        ≠ some (walkinDupMessage ["plate number"])
      ∧ (walkinCreateApplication [appPending3] wreqDupPlate 50).store
        = [appPending3] := by decide

/-- The walk-in route's `Missing required fields` guard, negated. -/
abbrev walkinFieldsPresent (r : WalkinRequest) : Prop :=
  ¬ (r.familyName = "" ∨ r.givenName = "" ∨ r.homeAddress = ""
    ∨ r.schoolAffiliation = "" ∨ r.idNumber = "" ∨ r.vehicleUserType = ""
    ∨ r.vehicleType = "" ∨ r.plateNumber = "" ∨ r.orNumber = ""
    ∨ r.crNumber = "")

/-- C9 amended: a creation request duplicating an existing application's
plate (as the route compares it — uppercased on the walk-in route), OR
number, or CR number always fails and creates no record; when it reaches
the duplicate-vehicle check the error names each duplicated field, but a
duplicated plate is intercepted earlier (walk-in route: any existing
application with that uppercased plate; user route: the requester's own
application) by a plate-only check with a generic message. -/
theorem create_duplicate_guard (store : List Application)
    (users : List Nat) (userId newId : Nat)
    (ureq : UserCreateRequest) (wreq : WalkinRequest) :
    ((∃ a ∈ store,
        a.vehicleInfo.plateNumber = ureq.vehicleInfo.plateNumber
          ∨ a.vehicleInfo.orNumber = ureq.vehicleInfo.orNumber
          ∨ a.vehicleInfo.crNumber = ureq.vehicleInfo.crNumber) →
      (userCreateApplication store users userId ureq newId).store = store
        ∧ (userCreateApplication store users userId ureq newId).status
          ≠ 201)
    ∧ ((∃ a ∈ store,
        a.vehicleInfo.plateNumber = (jsToUpper wreq.plateNumber)
          ∨ a.vehicleInfo.orNumber = wreq.orNumber
          ∨ a.vehicleInfo.crNumber = wreq.crNumber) →
      (walkinCreateApplication store wreq newId).store = store
        ∧ (walkinCreateApplication store wreq newId).status ≠ 201)
    ∧ (∀ dup,
        store.find? (fun a =>
          a.vehicleInfo.plateNumber == (jsToUpper wreq.plateNumber)) = none →
        store.find? (dupVehiclePred (jsToUpper wreq.plateNumber) wreq.orNumber
          wreq.crNumber) = some dup →
        walkinFieldsPresent wreq →
        validAffiliations.contains wreq.schoolAffiliation = true →
        validUserTypes.contains wreq.vehicleUserType = true →
        (walkinCreateApplication store wreq newId).error
          = some (walkinDupMessage (duplicateFields dup
              (jsToUpper wreq.plateNumber) wreq.orNumber wreq.crNumber))) := by
  refine ⟨?_, ?_, ?_⟩
  · rintro ⟨a, ha, hdup⟩
    have hfd : store.find? (dupVehiclePred ureq.vehicleInfo.plateNumber
        ureq.vehicleInfo.orNumber ureq.vehicleInfo.crNumber) ≠ none := by
      intro hnone
      have hcon := List.find?_eq_none.mp hnone a ha
      rcases hdup with h | h | h <;> simp [dupVehiclePred, h] at hcon
    simp only [userCreateApplication]
    repeat' split
    all_goals simp_all
  · rintro ⟨a, ha, hdup⟩
    have hfd : store.find? (dupVehiclePred (jsToUpper wreq.plateNumber)
        wreq.orNumber wreq.crNumber) ≠ none := by
      intro hnone
      have hcon := List.find?_eq_none.mp hnone a ha
      rcases hdup with h | h | h <;> simp [dupVehiclePred, h] at hcon
    simp only [walkinCreateApplication]
    repeat' split
    all_goals simp_all
  · intro dup hplate hdup hreq haff hut
    have haff2 : ¬¬ (validAffiliations.contains wreq.schoolAffiliation
        = true) := not_not_intro haff
    have hut2 : ¬¬ (validUserTypes.contains wreq.vehicleUserType = true) :=
      not_not_intro hut
    simp only [walkinCreateApplication]
    rw [if_neg hreq, if_neg haff2, if_neg hut2, hplate, hdup]

def ureqDupOr : UserCreateRequest :=
  ⟨"Somewhere St", "student", "ID-2", "owner",
    ⟨"car", "NEW123", "OR1", "CR77", none, none⟩⟩

def wreqDupOr : WalkinRequest :=
  ⟨"Doe", "Jane", "Somewhere St", "student", "ID-3", "owner", "car",
    "NEW456", "OR1", "CR88", none, none⟩

/-- Witness for the amended C9: a request duplicating the stored OR
number is refused on both routes with no record created, and the walk-in
duplicate error names exactly the OR number field. -/
theorem create_duplicate_guard_witness :
    ((userCreateApplication [appPending3] [7] 7 ureqDupOr 50).store
        = [appPending3]
      ∧ (userCreateApplication [appPending3] [7] 7 ureqDupOr 50).status
        ≠ 201)
    ∧ ((walkinCreateApplication [appPending3] wreqDupOr 51).store
        = [appPending3]
      ∧ (walkinCreateApplication [appPending3] wreqDupOr 51).status ≠ 201)
    ∧ (walkinCreateApplication [appPending3] wreqDupOr 51).error
        = some (walkinDupMessage (duplicateFields appPending3
            (jsToUpper "NEW456") "OR1" "CR88")) :=
  ⟨(create_duplicate_guard [appPending3] [7] 7 50 ureqDupOr wreqDupOr).1
      (by decide),
   (create_duplicate_guard [appPending3] [7] 7 51 ureqDupOr wreqDupOr).2.1
      (by decide),
   (create_duplicate_guard [appPending3] [7] 7 51 ureqDupOr wreqDupOr).2.2
      appPending3 (by decide) (by decide) (by decide) (by decide)
      (by decide)⟩

end VPS
